import Mathlib

/-!
Verification development for the `app_use` agent execution engine
(`app_use/agent/service.py` and `app_use/agent/prompts.py`).

The Python code is shallowly embedded: Python strings become `String`,
`None`-able values become `Option`, exceptions become `Except` or explicit
outcome values, and the external collaborators (the LLM transport, the
action controller, the app driver) become oracle function parameters.
-/

namespace AppUse

/-! ## Data model (`app_use/agent/views.py` is not part of the sources;
the record shapes below follow the spec section 3 exactly as used by
`service.py`). -/

/-- One action in a parsed model output.  `defaulted` stands for an action
whose `model_dump()` is the empty dict `{}` (no field set), which is what
`Agent.step` tests for with `action.model_dump() == {}`.  `done` carries the
parameters used by the synthesized terminal action; every other registry
action is opaque to the engine. -/
inductive AgentAction where
  | done (success : Bool) (text : String)
  | app (name : String)
  | defaulted
deriving DecidableEq

/-- Whether `action.model_dump() == {}` holds for this action. -/
def AgentAction.dumpIsEmpty : AgentAction → Bool
  | .defaulted => true
  | _ => false

/-- Parsed model output (`AgentOutput` of `views.py`, as the spec describes
it: thinking, evaluation, memory note, next goal, ordered action list). -/
structure AgentOutput where
  thinking : String := ""
  evaluation_previous_goal : String := ""
  memory : String := ""
  next_goal : String := ""
  action : List AgentAction := []
deriving DecidableEq

/-- Outcome of one action execution (`ActionResult` of `views.py` per the
spec: success flag, optional extracted content, optional error text,
`is_done` flag).  An absent / empty (falsy) error is `none`. -/
structure ActionResult where
  success : Option Bool := none
  extracted_content : Option String := none
  error : Option String := none
  is_done : Bool := false
deriving DecidableEq

/-- The per-run mutable state fields of `AgentState` that `Agent.step`
reads and writes. -/
structure AgentState where
  n_steps : Nat := 1
  consecutive_failures : Nat := 0
  last_result : Option (List ActionResult) := none
  paused : Bool := false
  stopped : Bool := false
deriving DecidableEq

/-- A conversation message (tagged as in langchain:
System / Human / AI). -/
inductive Msg where
  | system (content : String)
  | human (content : String)
  | ai (content : String)
deriving DecidableEq

/-! ## `Agent.get_next_action` - final truncation stage (service.py 876-878) -/

/-- The action-list truncation at the end of `Agent.get_next_action`:
`if len(parsed.action) > self.settings.max_actions_per_step:
parsed.action = parsed.action[: self.settings.max_actions_per_step]`. -/
def truncateActions (max_actions_per_step : Nat) (parsed : AgentOutput) : AgentOutput :=
  if max_actions_per_step < parsed.action.length then
    { parsed with action := parsed.action.take max_actions_per_step }
  else
    parsed

/-- `Agent.get_next_action` seen from its parse outcome: a parse failure
raises (`Except.error`), a parsed output is returned after the truncation
stage; a parsed output is never rejected. -/
def getNextAction (max_actions_per_step : Nat)
    (parseOutcome : Except String AgentOutput) : Except String AgentOutput :=
  match parseOutcome with
  | .error e => .error e
  | .ok parsed => .ok (truncateActions max_actions_per_step parsed)

/-! ## `Agent.step` - empty / all-default action handling (service.py 606-626) -/

/-- The emptiness test of `Agent.step`:
`not model_output.action or all(action.model_dump() == \x7b\x7d for action
in model_output.action)` (the `isinstance` clause is vacuous here since the
action field is always a list). -/
def isEmptyOrAllDefault (out : AgentOutput) : Bool :=
  out.action.isEmpty || out.action.all AgentAction.dumpIsEmpty

/-- The clarification message appended for the retry. -/
def clarificationMessage : Msg :=
  .human "You forgot to return an action. Please respond only with a valid JSON action according to the expected format."

/-- The synthesized safe noop action
`self.ActionModel(done={'success': False, 'text': 'No next action returned by LLM!'})`. -/
def noopDoneAction : AgentAction :=
  .done false "No next action returned by LLM!"

/-- The model-call phase of `Agent.step` (lines 604-626): call
`get_next_action` on the staged messages; when the output is empty or
all-default, call it once more on `input_messages + [clarification]`; when
the retry is still empty, replace the retry output's action list by the
single synthesized `done` action.  Besides the resulting output the
embedding returns the trace of message lists sent to `get_next_action`, in
order, so the number and content of the LLM queries is part of the model. -/
def getNextActionPhase (oracle : List Msg → Except String AgentOutput)
    (input_messages : List Msg) :
    Except String AgentOutput × List (List Msg) :=
  match oracle input_messages with
  | .error e => (.error e, [input_messages])
  | .ok out =>
    if isEmptyOrAllDefault out then
      let retry_messages := input_messages ++ [clarificationMessage]
      match oracle retry_messages with
      | .error e => (.error e, [input_messages, retry_messages])
      | .ok retryOut =>
        if isEmptyOrAllDefault retryOut then
          (.ok { retryOut with action := [noopDoneAction] }, [input_messages, retry_messages])
        else
          (.ok retryOut, [input_messages, retry_messages])
    else
      (.ok out, [input_messages])

/-! ## `Agent.multi_act` (service.py 934-968) -/

/-- `Agent.multi_act`: execute the actions in order through the controller
oracle `act`; after each execution, stop when the result reports `is_done`,
reports an error, or the action was the last of the batch; otherwise sleep
0.5 s and continue.  Returns the result list, the list of actions actually
executed, and the number of sleeps (one between every two successive
executions).  The paused/stopped check and Ctrl+C handling are orthogonal
to the batch semantics and are modelled in `stepModel`. -/
def multiAct (act : AgentAction → ActionResult) :
    List AgentAction → List ActionResult × List AgentAction × Nat
  | [] => ([], [], 0)
  | [a] =>
    let r := act a
    ([r], [a], 0)
  | a :: b :: rest =>
    let r := act a
    if r.is_done || r.error.isSome then
      ([r], [a], 0)
    else
      let tail := multiAct act (b :: rest)
      (r :: tail.1, a :: tail.2.1, tail.2.2 + 1)

/-- Specification of the executed segment of a batch: the longest initial
segment that ends at the first action whose result reports `is_done` or an
error (or at the end of the batch). -/
def stopSegment (act : AgentAction → ActionResult) :
    List AgentAction → List AgentAction
  | [] => []
  | a :: rest =>
    let r := act a
    if r.is_done || r.error.isSome then [a] else a :: stopSegment act rest

/-! ## Tool-calling negotiation (service.py 284-456) -/

/-- The structured-output protocols (`ToolCallingMethod` of `views.py`). -/
inductive ToolCallingMethod where
  | function_calling
  | tools
  | json_mode
  | raw
deriving DecidableEq, BEq

/-- The Python string value of each method. -/
def ToolCallingMethod.pyName : ToolCallingMethod → String
  | .function_calling => "function_calling"
  | .tools => "tools"
  | .json_mode => "json_mode"
  | .raw => "raw"

/-- The `tool_calling_method` agent setting: the literal `'auto'` or an
explicitly requested method. -/
inductive RequestedMethod where
  | auto
  | explicit (m : ToolCallingMethod)
deriving DecidableEq

/-- The errors raised by `_set_tool_calling_method` /
`_detect_best_tool_calling_method`: Python `ConnectionError`, and the
explicit-unsupported-method error (Python
`RuntimeError("Configured tool calling method ... is not supported by the
current LLM.")`, the `ConfigurationError` of the design taxonomy). -/
inductive NegotiationError where
  | connectionError (msg : String)
  | configurationError (msg : String)
deriving DecidableEq

/-- Message of the `ConnectionError` raised at both raise sites. -/
def connectionFailedMsg : String :=
  "Failed to connect to LLM. Please check your API key and network connection."

/-- Message of the explicit-unsupported-method error. -/
def configurationErrorMsg (m : ToolCallingMethod) : String :=
  "Configured tool calling method \x27" ++ m.pyName ++ "\x27 is not supported by the current LLM."

/-- The fixed preference order `methods_to_try` of
`_detect_best_tool_calling_method`. -/
def methodsToTry : List ToolCallingMethod :=
  [.function_calling, .tools, .json_mode, .raw]

/-- The concurrent probes as they finish: `order` is the sequence in which
the probe tasks complete, and each completed task carries its
`(method, success)` pair (a probe never raises: `_test_tool_calling_method`
catches every exception and returns a boolean). -/
def completionEvents (probe : ToolCallingMethod → Bool)
    (order : List ToolCallingMethod) : List (ToolCallingMethod × Bool) :=
  order.map fun m => (m, probe m)

/-- `asyncio.gather` semantics: whatever the completion order, the results
list is re-assembled by task index, i.e. in the order of `methods_to_try`.
Each slot holds the completion event of its method. -/
def gatherFromEvents (events : List (ToolCallingMethod × Bool)) :
    List (ToolCallingMethod × Bool) :=
  methodsToTry.filterMap fun m => events.find? fun e => decide (e.1 = m)

/-- The result-processing loop of `_detect_best_tool_calling_method`
(lines 394-403): walk `methods_to_try` in preference order next to the
gathered results and return the first method whose result is successful. -/
def selectPreferred :
    List ToolCallingMethod → List (ToolCallingMethod × Bool) → Option ToolCallingMethod
  | [], _ => none
  | _, [] => none
  | m :: ms, r :: rs => if r.2 then some m else selectPreferred ms rs

/-- `Agent._detect_best_tool_calling_method`: probe all four methods
concurrently, gather the results in task order, adopt the first success in
preference order (that method is also cached on the LLM instance), and
raise `ConnectionError` when no method works. -/
def detectBestToolCallingMethod (probe : ToolCallingMethod → Bool)
    (order : List ToolCallingMethod) : Except NegotiationError ToolCallingMethod :=
  match selectPreferred methodsToTry (gatherFromEvents (completionEvents probe order)) with
  | some m => .ok m
  | none => .error (.connectionError connectionFailedMsg)

/-- `Agent._set_tool_calling_method`: `verified` is
`getattr(self.llm, '_verified_api_keys', None) is True`, `cached` is the
`_verified_tool_calling_method` attribute when present, `known` is
`_get_known_tool_calling_method()`, `probe` is
`_test_tool_calling_method`, and `order` is the completion order of the
concurrent probes during full detection. -/
def setToolCallingMethod (requested : RequestedMethod) (verified : Bool)
    (cached : Option ToolCallingMethod) (known : Option ToolCallingMethod)
    (probe : ToolCallingMethod → Bool) (order : List ToolCallingMethod) :
    Except NegotiationError ToolCallingMethod :=
  match requested with
  | .explicit m =>
    if verified then .ok m
    else if probe m then .ok m
    else if m = .raw then .error (.connectionError connectionFailedMsg)
    else .error (.configurationError (configurationErrorMsg m))
  | .auto =>
    match cached with
    | some c => .ok c
    | none =>
      match known with
      | some k =>
        if verified then .ok k
        else if probe k then .ok k
        else detectBestToolCallingMethod probe order
      | none => detectBestToolCallingMethod probe order

/-! ## `Agent.step` - state effects (service.py 551-732) -/

/-- The exceptional outcomes a phase of `Agent.step` can produce:
`interrupted` covers `InterruptedError` (pause / stop) and the inner
`asyncio.CancelledError` that `step` converts to `InterruptedError`;
`failure` is any other exception, carrying the formatted message. -/
inductive StepExc where
  | interrupted
  | failure (msg : String)
deriving DecidableEq

/-- The result `step` stores when it catches `InterruptedError`. -/
def pausedResult : List ActionResult :=
  [{ error := some "The agent was paused mid-step - the last action might need to be repeated" }]

/-- `Agent._handle_step_error`: increments `consecutive_failures` by one
and converts the exception to a single-element error result list (token
trimming, retry-delay sleeping and the parse hint only affect the message
and settings, not the counter arithmetic). -/
def handleStepError (st : AgentState) (msg : String) : AgentState :=
  { st with
    consecutive_failures := st.consecutive_failures + 1,
    last_result := some [{ error := some msg }] }

/-- The state effect of one `Agent.step` call.
`modelCall` is the outcome of the model-call phase (`get_next_action`
together with the empty-action retry handling); `pausedAfterModel` is the
paused/stopped flag at the second `_raise_if_stopped_or_paused` check
(line 628, after the model output was obtained); `execOutcome` is the
outcome of `multi_act` (a list of `ActionResult`, an interruption, or an
exception).  Control flow follows `step` exactly:
paused/stopped at entry raises `InterruptedError`, caught by the outer
handler which stores `pausedResult`; a model-call exception propagates to
`_handle_step_error`; after the second check `n_steps` is incremented,
then the actions are executed; a normal completion stores the result list
and resets `consecutive_failures` to zero unconditionally. -/
def stepModel (st : AgentState) (modelCall : Except StepExc AgentOutput)
    (pausedAfterModel : Bool) (execOutcome : Except StepExc (List ActionResult)) :
    AgentState :=
  if st.stopped || st.paused then
    { st with last_result := some pausedResult }
  else
    match modelCall with
    | .error .interrupted => { st with last_result := some pausedResult }
    | .error (.failure msg) => handleStepError st msg
    | .ok _ =>
      if pausedAfterModel then
        { st with last_result := some pausedResult }
      else
        let st1 := { st with n_steps := st.n_steps + 1 }
        match execOutcome with
        | .error .interrupted => { st1 with last_result := some pausedResult }
        | .error (.failure msg) => handleStepError st1 msg
        | .ok result =>
          { st1 with last_result := some result, consecutive_failures := 0 }

/-! ## `Agent.run` - outer loop (service.py 993-1070) -/

/-- The state fields the `run` loop conditions read:
`self.state.consecutive_failures`, `self.state.stopped`, and
`self.state.history.is_done()` after the step. -/
structure RunFlags where
  consecutive_failures : Nat
  stopped : Bool
  history_done : Bool
deriving DecidableEq

/-- The `for step in range(max_steps)` loop of `Agent.run` (paused polling
elided: the loop is modelled for an un-paused agent; initial actions and
the step hooks do not touch the loop conditions).  `doStep` is the state
effect of `await self.step(step_info)`.  Returns the final flags, the
number of `step` calls executed, and the `agent_run_error` message
(`none` on completion via `history.is_done()`). -/
def runLoop (doStep : RunFlags → RunFlags) (max_failures : Nat) :
    Nat → RunFlags → RunFlags × Nat × Option String
  | 0, s => (s, 0, some "Failed to complete task in maximum steps")
  | fuel + 1, s =>
    if max_failures ≤ s.consecutive_failures then
      (s, 0, some ("Stopped due to " ++ toString max_failures ++ " consecutive failures"))
    else if s.stopped then
      (s, 0, some "Agent stopped programmatically")
    else
      let s1 := doStep s
      if s1.history_done then
        (s1, 1, none)
      else
        let r := runLoop doStep max_failures fuel s1
        (r.1, r.2.1 + 1, r.2.2)

/-! ## `AgentMessagePrompt._get_app_state_description` (prompts.py 180-205) -/

/-- The inputs of the rendering: `elements_text` is the return value of
`element_tree.interactive_elements_to_string(...)` (empty string when the
snapshot has no interactive elements), and the two scroll offsets may be
`None`. -/
structure AppStateModel where
  elements_text : String
  pixels_above : Option Nat
  pixels_below : Option Nat
deriving DecidableEq

/-- The element-summary text built by `_get_app_state_description`: the
value of the local `elements_text` after the viewport markers are
attached. -/
def elementSummary (s : AppStateModel) : String :=
  if s.elements_text = "" then
    "empty page"
  else
    let t1 :=
      if 0 < s.pixels_above.getD 0 then
        "... " ++ toString (s.pixels_above.getD 0) ++
          " pixels above - scroll or extract content to see more ...\n" ++ s.elements_text
      else
        "[Start of page]\n" ++ s.elements_text
    if 0 < s.pixels_below.getD 0 then
      t1 ++ "\n... " ++ toString (s.pixels_below.getD 0) ++
        " pixels below - scroll or extract content to see more ..."
    else
      t1 ++ "\n[End of page]"

/-- The full return value of `_get_app_state_description`. -/
def getAppStateDescription (s : AppStateModel) : String :=
  "Interactive elements from top layer of the current page inside the viewport:\n" ++
    elementSummary s

/-! ## Planner phase of `Agent.step` (service.py 581-585, 1199-1277) -/

/-- Modelled from the spec: `MessageManager.add_plan` (module
`app_use/agent/message_manager/service.py`, absent from the sources)
inserts the planner guidance into the transcript at the given offset from
the end (`-1` = immediately before the last message); when there is no
plan to insert (`None`), the transcript is unchanged. -/
def add_plan (plan : Option String) (position : Int) (transcript : List Msg) : List Msg :=
  match plan with
  | none => transcript
  | some p =>
    let idx := ((transcript.length : Int) + position).toNat
    transcript.take idx ++ [Msg.ai p] ++ transcript.drop idx

/-- `Agent._run_planner`: queries the planner LLM (its response content is
the oracle `plannerOutput`); in reasoning mode the guidance is appended to
the END of the transcript via `_add_message_with_tokens`, in simple mode it
is only logged.  On every path the Python function returns `None` - its
annotated return type is `None` and it has no `return value` statement -
so the returned plan is always `none`. -/
def runPlanner (plannerOutput : String) (is_reasoning : Bool) (transcript : List Msg) :
    List Msg × Option String :=
  if is_reasoning then
    (transcript ++ [Msg.human ("Strategic guidance from planner: " ++ plannerOutput)], none)
  else
    (transcript, none)

/-- The planner block of `Agent.step` (lines 581-585): when a planner LLM
is configured and `n_steps % planner_interval == 0`, run the planner and
pass its return value to `add_plan(plan, position=-1)`. -/
def stepPlannerPhase (hasPlannerLLM : Bool) (n_steps planner_interval : Nat)
    (plannerOutput : String) (is_reasoning : Bool) (transcript : List Msg) : List Msg :=
  if hasPlannerLLM && (n_steps % planner_interval == 0) then
    let r := runPlanner plannerOutput is_reasoning transcript
    add_plan r.2 (-1) r.1
  else
    transcript

/-- A concrete controller oracle used for evaluation: the action named `B`
fails with an error result, every other action succeeds cleanly. -/
def sampleAct (a : AgentAction) : ActionResult :=
  if a = .app "B" then { error := some "boom" } else {}

/-- A concrete step effect used for evaluation: every step fails, so the
consecutive-failure counter grows by one each time. -/
def failingStep (s : RunFlags) : RunFlags :=
  { consecutive_failures := s.consecutive_failures + 1, stopped := false, history_done := false }

/-! ## Theorems -/

/-- C2: for every parsed model output returned by `Agent.get_next_action`,
an action list with at most `max_actions_per_step` entries is returned
unchanged; a longer list is truncated to exactly the first
`max_actions_per_step` entries; a parsed output is never rejected. -/
theorem c2_action_truncation (max_actions_per_step : Nat) (parsed : AgentOutput) :
    (parsed.action.length ≤ max_actions_per_step →
      truncateActions max_actions_per_step parsed = parsed) ∧
    (max_actions_per_step < parsed.action.length →
      (truncateActions max_actions_per_step parsed).action =
        parsed.action.take max_actions_per_step ∧
      (truncateActions max_actions_per_step parsed).action.length = max_actions_per_step) ∧
    getNextAction max_actions_per_step (.ok parsed) =
      .ok (truncateActions max_actions_per_step parsed) := by
  refine ⟨?_, ?_, rfl⟩
  · intro h
    simp [truncateActions, Nat.not_lt.mpr h]
  · intro h
    simp [truncateActions, h, List.length_take, Nat.min_eq_left (le_of_lt h)]

/-- Witness for C2 at a concrete output with one action and limit 5. -/
theorem c2_action_truncation_witness :
    ({ action := [AgentAction.app "a"] } : AgentOutput).action.length ≤ 5 ∧
    truncateActions 5 { action := [AgentAction.app "a"] } =
      { action := [AgentAction.app "a"] } :=
  ⟨by decide, (c2_action_truncation 5 { action := [AgentAction.app "a"] }).1 (by decide)⟩

/-- C3: when `get_next_action` returns an empty or all-default action list,
`Agent.step` retries exactly once with the clarification message appended
to the staged messages; when the retry is also empty or all-default, the
step does not fail but returns the retry output with its action list
replaced by the single synthesized `done(success=false,
text="No next action returned by LLM!")` action.  A non-empty first answer
is returned directly with no retry. -/
theorem c3_empty_action_retry (oracle : List Msg → Except String AgentOutput)
    (input_messages : List Msg) :
    (∀ out, oracle input_messages = .ok out → isEmptyOrAllDefault out = false →
      getNextActionPhase oracle input_messages = (.ok out, [input_messages])) ∧
    (∀ out retryOut,
      oracle input_messages = .ok out → isEmptyOrAllDefault out = true →
      oracle (input_messages ++ [clarificationMessage]) = .ok retryOut →
      isEmptyOrAllDefault retryOut = true →
      getNextActionPhase oracle input_messages =
        (.ok { retryOut with action := [noopDoneAction] },
          [input_messages, input_messages ++ [clarificationMessage]])) := by
  constructor
  · intro out h he
    simp [getNextActionPhase, h, he]
  · intro out retryOut h he h2 he2
    simp [getNextActionPhase, h, he, h2, he2]

/-- Witness for C3 with an oracle that always returns zero actions. -/
theorem c3_empty_action_retry_witness :
    (fun _ : List Msg => (Except.ok ({} : AgentOutput) : Except String AgentOutput)) [] =
      .ok {} ∧
    isEmptyOrAllDefault {} = true ∧
    getNextActionPhase (fun _ => .ok {}) [] =
      (.ok { ({} : AgentOutput) with action := [noopDoneAction] },
        [[], [clarificationMessage]]) :=
  ⟨rfl, rfl,
    (c3_empty_action_retry (fun _ => .ok {}) []).2 {} {} rfl rfl rfl rfl⟩

/-- C10: `n_steps` changes by at most one per step, and it is incremented
(exactly once, by one) precisely when the step is not paused or stopped at
entry, the model-call phase returns a successfully parsed output, and the
post-model pause check passes - in particular a step that raises or is
interrupted before or during the model call leaves `n_steps` unchanged,
while the increment precedes action execution, so any `multi_act` outcome
(including failure) keeps the incremented value. -/
theorem c10_n_steps_increment (st : AgentState) (modelCall : Except StepExc AgentOutput)
    (pausedAfterModel : Bool) (execOutcome : Except StepExc (List ActionResult)) :
    ((stepModel st modelCall pausedAfterModel execOutcome).n_steps = st.n_steps ∨
      (stepModel st modelCall pausedAfterModel execOutcome).n_steps = st.n_steps + 1) ∧
    ((stepModel st modelCall pausedAfterModel execOutcome).n_steps = st.n_steps + 1 ↔
      st.stopped = false ∧ st.paused = false ∧
        (∃ out, modelCall = .ok out) ∧ pausedAfterModel = false) := by
  rcases modelCall with e | out
  · rcases e with _ | msg <;>
      cases hstop : st.stopped <;> cases hpause : st.paused <;>
        simp [stepModel, handleStepError, hstop, hpause]
  · cases hstop : st.stopped <;> cases hpause : st.paused <;>
      cases hpa : pausedAfterModel <;>
        rcases execOutcome with e2 | res <;>
          first
          | (rcases e2 with _ | msg <;>
              simp [stepModel, handleStepError, hstop, hpause, hpa])
          | simp [stepModel, handleStepError, hstop, hpause, hpa]

/-- C1 counterexample: a step that completes action execution with a
non-empty result list CONTAINING an error resets the counter to zero
instead of incrementing it by one, refuting the claim's `otherwise`
branch. -/
theorem c1_counterexample :
    (stepModel { n_steps := 1, consecutive_failures := 1 }
        (.ok { action := [AgentAction.app "tap"] }) false
        (.ok [{ error := some "Element not found" }])).consecutive_failures = 0 ∧
    ([({ error := some "Element not found" } : ActionResult)] ≠ ([] : List ActionResult)) ∧
    ({ error := some "Element not found" } : ActionResult).error.isSome = true ∧
    (stepModel { n_steps := 1, consecutive_failures := 1 }
        (.ok { action := [AgentAction.app "tap"] }) false
        (.ok [{ error := some "Element not found" }])).consecutive_failures ≠ 1 + 1 := by
  refine ⟨rfl, by decide, rfl, by decide⟩

/-- C1 (amended): the counter is reset to zero after every step that
completes action execution without an exception - regardless of errors
recorded inside the result list; it is incremented by exactly one when the
step raises a non-interrupt exception (in the model-call phase or during
action execution), and a pause / cancellation interruption leaves it
unchanged. -/
theorem c1_amended_failure_counter (st : AgentState)
    (modelCall : Except StepExc AgentOutput) (pausedAfterModel : Bool)
    (execOutcome : Except StepExc (List ActionResult))
    (hstop : st.stopped = false) (hpause : st.paused = false) :
    (∀ out res, modelCall = .ok out → pausedAfterModel = false →
      execOutcome = .ok res →
      (stepModel st modelCall pausedAfterModel execOutcome).consecutive_failures = 0) ∧
    (∀ msg, modelCall = .error (.failure msg) →
      (stepModel st modelCall pausedAfterModel execOutcome).consecutive_failures =
        st.consecutive_failures + 1) ∧
    (∀ out msg, modelCall = .ok out → pausedAfterModel = false →
      execOutcome = .error (.failure msg) →
      (stepModel st modelCall pausedAfterModel execOutcome).consecutive_failures =
        st.consecutive_failures + 1) ∧
    (modelCall = .error .interrupted →
      (stepModel st modelCall pausedAfterModel execOutcome).consecutive_failures =
        st.consecutive_failures) ∧
    (∀ out, modelCall = .ok out → pausedAfterModel = true →
      (stepModel st modelCall pausedAfterModel execOutcome).consecutive_failures =
        st.consecutive_failures) ∧
    (∀ out, modelCall = .ok out → pausedAfterModel = false →
      execOutcome = .error .interrupted →
      (stepModel st modelCall pausedAfterModel execOutcome).consecutive_failures =
        st.consecutive_failures) := by
  refine ⟨?_, ?_, ?_, ?_, ?_, ?_⟩ <;> intros <;> subst_vars <;>
    simp [stepModel, handleStepError, hstop, hpause]

/-- Witness for the amended C1: a completed step whose last result carries
an error still resets the counter from 2 to 0. -/
theorem c1_amended_failure_counter_witness :
    (Except.ok ({ action := [AgentAction.app "swipe"] } : AgentOutput) :
      Except StepExc AgentOutput) = .ok { action := [AgentAction.app "swipe"] } ∧
    (stepModel { n_steps := 2, consecutive_failures := 2 }
        (.ok { action := [AgentAction.app "swipe"] }) false
        (.ok [{ error := some "boom" }])).consecutive_failures = 0 :=
  ⟨rfl,
    (c1_amended_failure_counter { n_steps := 2, consecutive_failures := 2 }
      (.ok { action := [AgentAction.app "swipe"] }) false
      (.ok [{ error := some "boom" }]) rfl rfl).1
      { action := [AgentAction.app "swipe"] } [{ error := some "boom" }] rfl rfl rfl⟩

/-- The executed segment of a non-empty batch is non-empty. -/
theorem stopSegment_ne_nil (act : AgentAction → ActionResult) (a : AgentAction)
    (rest : List AgentAction) : stopSegment act (a :: rest) ≠ [] := by
  simp only [stopSegment]
  split <;> simp

/-- `multi_act` executes exactly the stop segment of the batch, returns one
result per executed action, and sleeps once between every two successive
executions. -/
theorem multiAct_eq_stopSegment (act : AgentAction → ActionResult) :
    ∀ actions : List AgentAction,
      multiAct act actions =
        ((stopSegment act actions).map act, stopSegment act actions,
          (stopSegment act actions).length - 1)
  | [] => rfl
  | [a] => by
    simp only [multiAct, stopSegment]
    split <;> simp
  | a :: b :: rest => by
    have ih := multiAct_eq_stopSegment act (b :: rest)
    have hne := stopSegment_ne_nil act b rest
    have hlen := List.length_pos.mpr hne
    by_cases hcond : ((act a).is_done || (act a).error.isSome) = true
    · simp [multiAct, stopSegment, hcond]
    · simp [multiAct, stopSegment, hcond, ih]
      split <;> simp

/-- C4: the actions of a batch execute in order and execution stops at the
first action whose result reports `is_done`, reports an error, or is the
last of the batch: the executed actions are exactly the stop segment, the
result list is their results in order, and a fixed sleep separates
successive executions.  For a batch `[A, B, C]` where `A` succeeds cleanly
and `B` reports an error, the result list has length 2 and only `A` and
`B` are executed - `C` never runs. -/
theorem c4_multi_act_partial_batch (act : AgentAction → ActionResult)
    (actions : List AgentAction) :
    ((multiAct act actions).1 = (stopSegment act actions).map act ∧
      (multiAct act actions).2.1 = stopSegment act actions ∧
      (multiAct act actions).2.2 = (multiAct act actions).2.1.length - 1) ∧
    (∀ A B C : AgentAction, (act A).is_done = false → (act A).error = none →
      (act B).error.isSome = true →
      (multiAct act [A, B, C]).1.length = 2 ∧
      (multiAct act [A, B, C]).2.1 = [A, B]) := by
  have h := multiAct_eq_stopSegment act actions
  refine ⟨⟨by rw [h], by rw [h], by rw [h]⟩, ?_⟩
  intro A B C hdone herr hBerr
  have hA : ((act A).is_done || (act A).error.isSome) = false := by
    simp [hdone, herr]
  have hB : ((act B).is_done || (act B).error.isSome) = true := by
    simp [hBerr]
  simp [multiAct, hA, hB]

/-- Witness for C4 at the concrete controller oracle `sampleAct` and the
batch `[A, B, C]` with `B` failing. -/
theorem c4_multi_act_partial_batch_witness :
    (sampleAct (AgentAction.app "A")).is_done = false ∧
    (sampleAct (AgentAction.app "B")).error.isSome = true ∧
    (multiAct sampleAct
      [AgentAction.app "A", AgentAction.app "B", AgentAction.app "C"]).1.length = 2 ∧
    (multiAct sampleAct
      [AgentAction.app "A", AgentAction.app "B", AgentAction.app "C"]).2.1 =
      [AgentAction.app "A", AgentAction.app "B"] := by
  have h := (c4_multi_act_partial_batch sampleAct
      [AgentAction.app "A", AgentAction.app "B", AgentAction.app "C"]).2
      (AgentAction.app "A") (AgentAction.app "B") (AgentAction.app "C")
      (by decide) (by decide) (by decide)
  exact ⟨by decide, by decide, h.1, h.2⟩

/-- C5: the `run` loop checks the consecutive-failure counter before every
step, so once the counter has reached `max_failures` it executes zero
further steps and halts with the failure message; and when every step
fails (incrementing the counter by one), `max_failures = 3` and the
counter starts at zero, exactly three steps execute before the halt on
the third failure. -/
theorem c5_run_halts_on_max_failures (doStep : RunFlags → RunFlags) (max_failures : Nat) :
    (∀ fuel s, max_failures ≤ s.consecutive_failures →
      runLoop doStep max_failures (fuel + 1) s =
        (s, 0, some ("Stopped due to " ++ toString max_failures ++
          " consecutive failures"))) ∧
    ((∀ s, doStep s = ⟨s.consecutive_failures + 1, false, false⟩) →
      ∀ fuel,
        (runLoop doStep 3 (fuel + 4)
          { consecutive_failures := 0, stopped := false, history_done := false }).2.1 = 3 ∧
        (runLoop doStep 3 (fuel + 4)
          { consecutive_failures := 0, stopped := false, history_done := false }).2.2 =
          some "Stopped due to 3 consecutive failures") := by
  constructor
  · intro fuel s h
    simp [runLoop, h]
  · intro hf fuel
    rw [show fuel + 4 = fuel + 3 + 1 from rfl]
    simp [show fuel + 3 = fuel + 2 + 1 from rfl, show fuel + 2 = fuel + 1 + 1 from rfl,
      runLoop, hf]
    rfl

/-- Witness for C5: with the concrete always-failing step effect, a start
counter at the maximum executes zero steps, and a fresh run executes
exactly three steps before halting. -/
theorem c5_run_halts_on_max_failures_witness :
    3 ≤ (5 : Nat) ∧
    (runLoop failingStep 3 (0 + 1)
      { consecutive_failures := 5, stopped := false, history_done := false }).2.1 = 0 ∧
    (runLoop failingStep 3 (96 + 4)
      { consecutive_failures := 0, stopped := false, history_done := false }).2.1 = 3 := by
  refine ⟨by decide, ?_, ?_⟩
  · rw [(c5_run_halts_on_max_failures failingStep 3).1 0
      { consecutive_failures := 5, stopped := false, history_done := false } (by decide)]
  · exact ((c5_run_halts_on_max_failures failingStep 3).2 (fun s => rfl) 96).1

/-- In the completion-event stream of the concurrent probes, the first
event for a method carries exactly that method's probe outcome. -/
theorem find_completion_event (probe : ToolCallingMethod → Bool) (m : ToolCallingMethod) :
    ∀ order : List ToolCallingMethod, m ∈ order →
      (completionEvents probe order).find? (fun e => decide (e.1 = m)) = some (m, probe m)
  | [], h => absurd h (List.not_mem_nil m)
  | a :: rest, h => by
    simp only [completionEvents, List.map_cons]
    by_cases ha : a = m
    · subst ha
      rw [List.find?_cons_of_pos _ (by simp)]
    · have hm : m ∈ rest := by
        rcases List.mem_cons.mp h with h1 | h2
        · exact absurd h1.symm ha
        · exact h2
      have ih := find_completion_event probe m rest hm
      rw [List.find?_cons_of_neg _ (by simp [ha])]
      simpa only [completionEvents] using ih

/-- Whatever the completion order of the probe tasks, `asyncio.gather`
re-assembles the results in the `methods_to_try` task order. -/
theorem gather_eval (probe : ToolCallingMethod → Bool) (order : List ToolCallingMethod)
    (h : order.Perm methodsToTry) :
    gatherFromEvents (completionEvents probe order) =
      methodsToTry.map fun m => (m, probe m) := by
  have hmem : ∀ m : ToolCallingMethod, m ∈ order := by
    intro m
    exact h.mem_iff.mpr (by cases m <;> simp [methodsToTry])
  have h1 := find_completion_event probe .function_calling order (hmem _)
  have h2 := find_completion_event probe .tools order (hmem _)
  have h3 := find_completion_event probe .json_mode order (hmem _)
  have h4 := find_completion_event probe .raw order (hmem _)
  simp [gatherFromEvents, methodsToTry, h1, h2, h3, h4]

/-- C6: during full auto-detection the four probes run concurrently, but
the adopted (and cached) method is the earliest successful one in the
preference order `[function_calling, tools, json_mode, raw]`, regardless
of the order in which the probe tasks complete; when every candidate
fails, detection raises `ConnectionError`. -/
theorem c6_detection_preference_order (probe : ToolCallingMethod → Bool)
    (order : List ToolCallingMethod) (h : order.Perm methodsToTry) :
    detectBestToolCallingMethod probe order =
      match methodsToTry.find? probe with
      | some m => .ok m
      | none => .error (.connectionError connectionFailedMsg) := by
  rw [detectBestToolCallingMethod, gather_eval probe order h]
  cases hfc : probe .function_calling <;> cases ht : probe .tools <;>
    cases hj : probe .json_mode <;> cases hr : probe .raw <;>
      simp [methodsToTry, selectPreferred, List.find?, hfc, ht, hj, hr]

/-- Witness for C6: with only `json_mode` succeeding and the probes
completing in exactly reversed preference order, detection still adopts
`json_mode`. -/
theorem c6_detection_preference_order_witness :
    ([ToolCallingMethod.raw, .json_mode, .tools, .function_calling].Perm methodsToTry) ∧
    detectBestToolCallingMethod (fun m => m == ToolCallingMethod.json_mode)
      [ToolCallingMethod.raw, .json_mode, .tools, .function_calling] = .ok .json_mode := by
  refine ⟨by decide, ?_⟩
  rw [c6_detection_preference_order (fun m => m == ToolCallingMethod.json_mode)
    [ToolCallingMethod.raw, .json_mode, .tools, .function_calling] (by decide)]
  rfl

/-- C7: when a specific method is explicitly requested (not `auto`) and
its single validation probe fails, a requested `raw` raises
`ConnectionError` while any other requested method raises the
explicit-unsupported-method configuration error, a distinct error from the
connectivity one. -/
theorem c7_explicit_method_errors (m : ToolCallingMethod)
    (cached known : Option ToolCallingMethod) (probe : ToolCallingMethod → Bool)
    (order : List ToolCallingMethod) (h : probe m = false) :
    (m = .raw →
      setToolCallingMethod (.explicit m) false cached known probe order =
        .error (.connectionError connectionFailedMsg)) ∧
    (m ≠ .raw →
      setToolCallingMethod (.explicit m) false cached known probe order =
        .error (.configurationError (configurationErrorMsg m))) := by
  constructor
  · intro hm
    subst hm
    simp [setToolCallingMethod, h]
  · intro hm
    simp [setToolCallingMethod, h, hm]

/-- Witness for C7: an explicitly requested `tools` whose probe fails
raises the configuration error, not the connection one. -/
theorem c7_explicit_method_errors_witness :
    (fun _ : ToolCallingMethod => false) ToolCallingMethod.tools = false ∧
    setToolCallingMethod (.explicit .tools) false none none (fun _ => false) [] =
      .error (.configurationError (configurationErrorMsg .tools)) :=
  ⟨rfl, (c7_explicit_method_errors .tools none none (fun _ => false) [] rfl).2 (by decide)⟩

/-- With content above (120 px) and none below, the element summary is the
above-marker line, the element text, and the end-of-page marker. -/
theorem elementSummary_above120_below0 (s : AppStateModel) (h : s.elements_text ≠ "")
    (ha : s.pixels_above = some 120) (hb : s.pixels_below = some 0) :
    elementSummary s =
      "... 120 pixels above - scroll or extract content to see more ...\n" ++
        s.elements_text ++ "\n[End of page]" := by
  simp [elementSummary, h, ha, hb]
  rfl

/-- C8: a snapshot with no interactive elements renders the element
summary `"empty page"`; a snapshot with at least one element,
`pixels_above = 120` and `pixels_below = 0` renders a summary that starts
with `"... 120 pixels above "` and ends with `"[End of page]"`. -/
theorem c8_app_state_rendering (s : AppStateModel) :
    (s.elements_text = "" → elementSummary s = "empty page") ∧
    (s.elements_text ≠ "" → s.pixels_above = some 120 → s.pixels_below = some 0 →
      (∃ t, elementSummary s = "... 120 pixels above " ++ t) ∧
      (∃ t, elementSummary s = t ++ "[End of page]")) := by
  constructor
  · intro h
    simp [elementSummary, h]
  · intro h ha hb
    rw [elementSummary_above120_below0 s h ha hb]
    constructor
    · refine ⟨"- scroll or extract content to see more ...\n" ++
        s.elements_text ++ "\n[End of page]", ?_⟩
      rw [← String.append_assoc "... 120 pixels above "
        ("- scroll or extract content to see more ...\n" ++ s.elements_text)
        "\n[End of page]",
        ← String.append_assoc "... 120 pixels above "
        "- scroll or extract content to see more ...\n" s.elements_text]
      rfl
    · refine ⟨"... 120 pixels above - scroll or extract content to see more ...\n" ++
        s.elements_text ++ "\n", ?_⟩
      rw [String.append_assoc
        ("... 120 pixels above - scroll or extract content to see more ...\n" ++
          s.elements_text) "\n" "[End of page]"]
      rfl

/-- Witness for C8 at an empty snapshot and at a one-element snapshot with
120 pixels above and 0 below. -/
theorem c8_app_state_rendering_witness :
    elementSummary ⟨"", some 120, none⟩ = "empty page" ∧
    (∃ t, elementSummary ⟨"[1] Button", some 120, some 0⟩ =
      "... 120 pixels above " ++ t) ∧
    (∃ t, elementSummary ⟨"[1] Button", some 120, some 0⟩ = t ++ "[End of page]") :=
  ⟨(c8_app_state_rendering ⟨"", some 120, none⟩).1 rfl,
    ((c8_app_state_rendering ⟨"[1] Button", some 120, some 0⟩).2 (by decide) rfl rfl).1,
    ((c8_app_state_rendering ⟨"[1] Button", some 120, some 0⟩).2 (by decide) rfl rfl).2⟩

/-- C9 (code bug): with a planner LLM configured and the interval
condition met, `step` calls `add_plan(plan, position=-1)`, but
`_run_planner` always returns `None`, so no guidance is ever inserted
before the staged state message: in simple mode the transcript is
unchanged (the guidance is only logged), and in reasoning mode the
guidance is appended AFTER the state message by `_run_planner` itself. -/
theorem c9_planner_guidance_not_inserted :
    stepPlannerPhase true 2 1 "Focus on the login flow" false
      [Msg.system "sys", Msg.human "state"] = [Msg.system "sys", Msg.human "state"] ∧
    stepPlannerPhase true 2 1 "Focus on the login flow" true
      [Msg.system "sys", Msg.human "state"] =
      [Msg.system "sys", Msg.human "state",
        Msg.human "Strategic guidance from planner: Focus on the login flow"] := by
  constructor <;> rfl

end AppUse
